import Mathlib

/-!
Shallow embedding of `src/job/mmdb_downloader.rs`, the background job that
keeps a local MaxMind GeoIP database file synchronized with a remote copy,
and proofs checking the design document's statements about it.

Modelling conventions:

* Effectful inputs (HTTP responses, filesystem reads, fallible constructor
  calls) are passed in as explicit `Except`/`Option` values, so every
  function is a pure function of an explicit environment.
* A Rust `.unwrap()` applied to an `Err` value is modelled as an explicit
  `panicked` outcome that propagates through callers, mirroring unwinding.
* Byte chunks are `List Nat`; machine integers carry no overflow here
  (`u64` byte counters are bounded by the declared content length).
* Rust `str::trim` is modelled on the string's character list with
  `List.dropWhile` / `List.rdropWhile`, with `Char.isWhitespace` standing
  for Rust's whitespace predicate.
-/

deriving instance DecidableEq for Except

namespace MmdbDownloader

/-- Model of Rust `str::trim`: remove leading and trailing whitespace from
the character list of the string. -/
def rustTrim (s : String) : String :=
  ⟨(s.data.dropWhile Char.isWhitespace).rdropWhile Char.isWhitespace⟩

/-- Local artifact path built by `run_download_files` (line 89 of the
source): `format!("{}{}", &CONFIG.common.mmdb_data_dir, MMDB_CITY_FILE_NAME)`,
a plain concatenation with no separator. -/
def run_download_files_fname (mmdb_data_dir mmdb_city_file_name : String) : String :=
  mmdb_data_dir ++ mmdb_city_file_name

/-- Local artifact path built by `run` for the initial load (line 119 of the
source): `format!("{}/{}", &CONFIG.common.mmdb_data_dir, MMDB_CITY_FILE_NAME)`,
which inserts a `/` separator between the two configured strings. -/
def run_fname (mmdb_data_dir mmdb_city_file_name : String) : String :=
  mmdb_data_dir ++ "/" ++ mmdb_city_file_name

/-- Model of `is_digest_different`. `remoteText` is the combined outcome of
`reqwest::get(remote_sha256sum_path)` followed by `.text()` (either of the
two `?` operators propagates the error); `localDigestResult` is the outcome
of `sha256::try_digest` on the local path, to which the source applies
`unwrap_or_default()`, turning any read failure into the empty string. -/
def is_digest_different (remoteText : Except String String)
    (localDigestResult : Except String String) : Except String Bool :=
  match remoteText with
  | .error e => .error e
  | .ok remote_file_sha =>
    let local_file_sha :=
      match localDigestResult with
      | .ok s => s
      | .error _ => ""
    .ok (rustTrim remote_file_sha != rustTrim local_file_sha)

/-- Abstract stand-in for a parsed `MaxmindClient` (its constructor
`MaxmindClient::new_with_path` lives outside this source file; the
downloader only stores the value it returns). -/
structure MaxmindClient where
  id : Nat
deriving DecidableEq

/-- Abstract stand-in for a built `Geoip` enrichment table (its constructor
`Geoip::new(GeoipConfig::default())` lives outside this source file). -/
structure Geoip where
  id : Nat
deriving DecidableEq

/-- The two pieces of global shared state the publisher writes:
`MAXMIND_DB_CLIENT` (behind a tokio `RwLock`) and `GEOIP_TABLE` (behind its
own lock), both `Option`-valued and empty at process start. -/
structure GlobalState where
  maxmind_db_client : Option MaxmindClient
  geoip_table : Option Geoip
deriving DecidableEq

/-- Outcome of one modelled call: either a normal return, or an unwind
started by `.unwrap()` on an `Err` value. -/
inductive StepOutcome where
  | normal : StepOutcome
  | panicked (msg : String) : StepOutcome
deriving DecidableEq

/-- Environment of one `update_global_maxmind_client` call: the result of
`MaxmindClient::new_with_path(fname)` and the result of
`Geoip::new(GeoipConfig::default())` (the source unwraps the latter). -/
structure PublishEnv where
  parseResult : Except String MaxmindClient
  geoipResult : Except String Geoip
deriving DecidableEq

/-- Result of one `update_global_maxmind_client` call: its outcome together
with the global state left behind (also in the unwind case, where the
client reference has already been replaced but the geoip table has not). -/
structure PublishResult where
  outcome : StepOutcome
  state : GlobalState
deriving DecidableEq

/-- Model of `update_global_maxmind_client` (source lines 29-44). On parse
success it stores the new client, then builds the `Geoip` table and unwraps
the result: a `Geoip` construction failure panics after the client write.
On parse failure it only logs a warning and leaves the state alone. -/
def update_global_maxmind_client (env : PublishEnv) (s : GlobalState) : PublishResult :=
  match env.parseResult with
  | .ok maxminddb_client =>
    match env.geoipResult with
    | .ok g => ⟨.normal, { maxmind_db_client := some maxminddb_client, geoip_table := some g }⟩
    | .error e => ⟨.panicked e, { s with maxmind_db_client := some maxminddb_client }⟩
  | .error _ => ⟨.normal, s⟩

/-- Events of the success branch of `update_global_maxmind_client`, in
program order, for reasoning about which locks are held when. -/
inductive LockEvent where
  | acquireClientWrite : LockEvent
  | storeClient : LockEvent
  | acquireGeoipWrite : LockEvent
  | storeGeoip : LockEvent
  | logSuccess : LockEvent
  | releaseGeoipWrite : LockEvent
  | releaseClientWrite : LockEvent
deriving DecidableEq

/-- The success branch of `update_global_maxmind_client` as an event trace.
`let mut client = MAXMIND_DB_CLIENT.write().await` acquires the client
write guard; `let mut geoip = GEOIP_TABLE.write()` acquires the geoip write
guard while the first guard is still live; both guards are dropped at the
end of the match arm, in reverse declaration order (`geoip` first). -/
def publish_success_events : List LockEvent :=
  [.acquireClientWrite, .storeClient, .acquireGeoipWrite, .storeGeoip,
    .logSuccess, .releaseGeoipWrite, .releaseClientWrite]

/-- Whether the lock with acquire event `acq` and release event `rel` is
held after the first `k` events of the publish success trace. -/
def lockHeldAfter (acq rel : LockEvent) (k : Nat) : Bool :=
  (publish_success_events.take k).count rel < (publish_success_events.take k).count acq

/-- The `MAXMIND_DB_CLIENT` write lock is held after `k` events. -/
def clientWriteHeld (k : Nat) : Bool :=
  lockHeldAfter .acquireClientWrite .releaseClientWrite k

/-- The `GEOIP_TABLE` write lock is held after `k` events. -/
def geoipWriteHeld (k : Nat) : Bool :=
  lockHeldAfter .acquireGeoipWrite .releaseGeoipWrite k

/-- One item of the artifact response body stream together with the fate of
the `file.write_all` call the source issues for it: `chunk bytes writeOk`
is a received chunk whose write succeeds iff `writeOk`; `streamError` is a
failed `stream.next()` item. -/
inductive ChunkItem where
  | chunk (bytes : List Nat) (writeOk : Bool) : ChunkItem
  | streamError : ChunkItem
deriving DecidableEq

/-- The artifact HTTP response: status code, declared `Content-Length`, and
the body stream. The source never inspects `status`. -/
structure HttpResponse where
  status : Nat
  contentLength : Option Nat
  chunks : List ChunkItem
deriving DecidableEq

/-- Environment of one `download_file` call: the outcome of
`client.get(url).send()` and whether `File::create(path)` succeeds. -/
structure DownloadEnv where
  sendResult : Except String HttpResponse
  createOk : Bool
deriving DecidableEq

/-- The destination path's slot in the filesystem: `none` when no file
exists there, otherwise the file's bytes. -/
structure FsState where
  destFile : Option (List Nat)
deriving DecidableEq

/-- Result of the download chunk loop: the loop's own outcome, the final
value of the `downloaded` counter, and the bytes written to the file. -/
structure ChunkLoopResult where
  outcome : Except String Unit
  downloaded : Nat
  content : List Nat
deriving DecidableEq

/-- Model of the `while let Some(item) = stream.next().await` loop of
`download_file` (source lines 76-83): each chunk is appended to the file,
then `downloaded` becomes `min(downloaded + chunk.len(), total_size)`. -/
def download_chunks (total_size : Nat) :
    List ChunkItem → Nat → List Nat → ChunkLoopResult
  | [], downloaded, content => ⟨.ok (), downloaded, content⟩
  | .streamError :: _, downloaded, content =>
    ⟨.error "Error while downloading file", downloaded, content⟩
  | .chunk bytes writeOk :: rest, downloaded, content =>
    if writeOk then
      download_chunks total_size rest
        (min (downloaded + bytes.length) total_size) (content ++ bytes)
    else ⟨.error "Error while writing to file", downloaded, content⟩

/-- Model of `download_file` (source lines 56-85): send the GET request,
require a declared content length, create (truncate) the destination file,
then run the chunk loop. Returns the call's result together with the
filesystem left behind (on a failed loop the partial content remains). -/
def download_file (env : DownloadEnv) (fs : FsState) : Except String Unit × FsState :=
  match env.sendResult with
  | .error _ => (.error "Failed to GET from url", fs)
  | .ok res =>
    match res.contentLength with
    | none => (.error "Failed to get content length from url", fs)
    | some total_size =>
      if env.createOk then
        let r := download_chunks total_size res.chunks 0 []
        (r.outcome, ⟨some r.content⟩)
      else (.error "Failed to create file", fs)

/-- Boolean success test for an `Except`, used to phrase hypotheses about
environment values decidably. -/
def exceptIsOk {ε α : Type} : Except ε α → Bool
  | .ok _ => true
  | .error _ => false

/-- Environment of one `run_download_files` call (one timer tick): the
result of `reqwest::ClientBuilder::default().build()` (the source unwraps
it), the two inputs of `is_digest_different`, the download environment, and
the publish environment. -/
structure CycleEnv where
  clientBuild : Except String Unit
  remoteShaText : Except String String
  localDigestResult : Except String String
  download : DownloadEnv
  publish : PublishEnv
deriving DecidableEq

/-- Result of one modelled cycle or loop: a normal value or an unwind. -/
inductive RunResult (α : Type) where
  | normal (a : α) : RunResult α
  | panicked (msg : String) : RunResult α
deriving DecidableEq

/-- Model of `run_download_files` (source lines 86-108): build the HTTP
client (unwrap), run the digest comparison treating its error as `false`
(log and skip), and if a difference is reported run `download_file`; on
download success call `update_global_maxmind_client`, on download failure
only log. -/
def run_download_files (env : CycleEnv) (s : GlobalState) (fs : FsState) :
    RunResult (GlobalState × FsState) :=
  match env.clientBuild with
  | .error e => .panicked e
  | .ok _ =>
    let download_files :=
      match is_digest_different env.remoteShaText env.localDigestResult with
      | .ok is_different => is_different
      | .error _ => false
    if download_files then
      match download_file env.download fs with
      | (.ok _, fs2) =>
        let pr := update_global_maxmind_client env.publish s
        match pr.outcome with
        | .normal => .normal (pr.state, fs2)
        | .panicked m => .panicked m
      | (.error _, fs2) => .normal (s, fs2)
    else .normal (s, fs)

/-- Environment of a `run` call, with the timer loop unrolled over a finite
list of tick environments: the result of `std::fs::create_dir_all`, the
publish environment of the unconditional initial load, and one `CycleEnv`
per observed tick. -/
structure RunEnv where
  createDirResult : Except String Unit
  initialPublish : PublishEnv
  cycles : List CycleEnv
deriving DecidableEq

/-- Outcome of `run` observed over a finite prefix of ticks: an error value
returned by `run` itself, an unwind, or still running in the loop with the
given state after consuming every supplied tick environment. -/
inductive RunOutcome where
  | errored (e : String) : RunOutcome
  | panicked (msg : String) : RunOutcome
  | running (s : GlobalState) (fs : FsState) : RunOutcome
deriving DecidableEq

/-- The `loop { interval.tick().await; run_download_files().await; }` body
of `run`, iterated over the supplied tick environments. The loop has no
`break` or `return`: its only non-continuing outcome is an unwind. -/
def run_loop : List CycleEnv → GlobalState → FsState → RunOutcome
  | [], s, fs => .running s fs
  | c :: rest, s, fs =>
    match run_download_files c s fs with
    | .panicked m => .panicked m
    | .normal (s2, fs2) => run_loop rest s2 fs2

/-- Model of `run` (source lines 110-127): `create_dir_all` is the one `?`
propagation; then the unconditional initial
`update_global_maxmind_client` against the pre-existing path, starting from
the empty global state; then the timer loop. -/
def run (env : RunEnv) (fs : FsState) : RunOutcome :=
  match env.createDirResult with
  | .error e => .errored e
  | .ok _ =>
    let pr := update_global_maxmind_client env.initialPublish ⟨none, none⟩
    match pr.outcome with
    | .panicked m => .panicked m
    | .normal => run_loop env.cycles pr.state fs

/-- Whether a stream item was received and written successfully. -/
def chunkOk : ChunkItem → Bool
  | .chunk _ writeOk => writeOk
  | .streamError => false

/-- Total number of body bytes carried by a list of stream items. -/
def chunksByteLen : List ChunkItem → Nat
  | [] => 0
  | .chunk bytes _ :: rest => bytes.length + chunksByteLen rest
  | .streamError :: rest => chunksByteLen rest

/-- A concrete all-success tick environment: client build succeeds, the
remote digest reads `abc` while the local file is unreadable, the download
delivers one fully written chunk, and both constructors succeed. -/
def c4env : CycleEnv :=
  ⟨Except.ok (), Except.ok "abc", Except.error "missing",
    ⟨Except.ok ⟨200, some 3, [.chunk [1, 2, 3] true]⟩, true⟩,
    ⟨Except.ok ⟨1⟩, Except.ok ⟨2⟩⟩⟩

/-- A concrete artifact response whose body (4 bytes) is shorter than its
declared content length (10 bytes). -/
def c9res : HttpResponse :=
  ⟨200, some 10, [.chunk [1, 2, 3] true, .chunk [4] true]⟩

/-- A concrete run environment whose directory creation succeeds and whose
single observed tick fails to build the HTTP client. -/
def c10badEnv : RunEnv :=
  ⟨Except.ok (), ⟨Except.error "no such file", Except.ok ⟨0⟩⟩,
    [⟨Except.error "client build failed", Except.ok "", Except.ok "",
      ⟨Except.error "x", true⟩, ⟨Except.error "y", Except.ok ⟨0⟩⟩⟩]⟩

/-- A concrete run environment whose directory creation succeeds, whose
initial load finds no parsable file, and whose single observed tick is the
all-success tick environment. -/
def c10goodEnv : RunEnv :=
  ⟨Except.ok (), ⟨Except.error "no such file", Except.ok ⟨9⟩⟩, [c4env]⟩

/-- Helper: the head of `l.dropWhile p` never satisfies `p`. -/
theorem dropWhile_head_false {α : Type} (p : α → Bool) :
    ∀ (l : List α) (a : α) (t : List α), l.dropWhile p = a :: t → p a = false := by
  intro l
  induction l with
  | nil => intro a t h; simp [List.dropWhile] at h
  | cons x xs ih =>
    intro a t h
    rw [List.dropWhile_cons] at h
    by_cases hx : p x = true
    · exact ih a t (by simpa [hx] using h)
    · rw [if_neg hx] at h
      injection h with h1 h2
      subst h1
      simpa using hx

open List in
/-- Helper: trimming the tail of an already head-trimmed list leaves nothing
further to remove at the head. -/
theorem dropWhile_after_trim {α : Type} (p : α → Bool) (l : List α) :
    ((l.dropWhile p).rdropWhile p).dropWhile p = (l.dropWhile p).rdropWhile p := by
  rcases hr : (l.dropWhile p).rdropWhile p with _ | ⟨a, t⟩
  · simp
  · obtain ⟨u, hu⟩ := rdropWhile_prefix p (l.dropWhile p)
    rw [hr, List.cons_append] at hu
    have ha : p a = false := dropWhile_head_false p l a (t ++ u) hu.symm
    simp [List.dropWhile_cons, ha]

/-- Helper: `rustTrim` is idempotent. -/
theorem rustTrim_idem (s : String) : rustTrim (rustTrim s) = rustTrim s := by
  have h :
      ((((s.data.dropWhile Char.isWhitespace).rdropWhile
            Char.isWhitespace).dropWhile Char.isWhitespace).rdropWhile Char.isWhitespace) =
        ((s.data.dropWhile Char.isWhitespace).rdropWhile Char.isWhitespace) := by
    rw [dropWhile_after_trim, List.rdropWhile_idempotent]
  exact congrArg String.mk h

/-- C1: the claim says the path the initial load passes to the publisher
equals the path the refresh cycle uses, for every configured directory and
filename. In fact the two format strings differ — `run` inserts a `/`
separator and `run_download_files` does not — so the two strings are never
equal (their lengths always differ by one). -/
theorem run_fname_ne_run_download_files_fname (mmdb_data_dir mmdb_city_file_name : String) :
    run_fname mmdb_data_dir mmdb_city_file_name ≠
      run_download_files_fname mmdb_data_dir mmdb_city_file_name := by
  intro h
  have h2 := congrArg String.length h
  simp only [run_fname, run_download_files_fname, String.length_append] at h2
  have h3 : ("/" : String).length = 1 := rfl
  rw [h3] at h2
  omega

/-- C5: whenever the remote digest fetch succeeds, `is_digest_different`
returns `true` iff the whitespace-trimmed remote text differs, as a string,
from the whitespace-trimmed local content digest; in particular, when the
local content hash equals the trimmed remote text the result is `false`,
regardless of surrounding whitespace in the remote text. -/
theorem is_digest_different_trim_spec (remote localSha : String) :
    (is_digest_different (Except.ok remote) (Except.ok localSha) = Except.ok true ↔
      rustTrim remote ≠ rustTrim localSha) ∧
    (localSha = rustTrim remote →
      is_digest_different (Except.ok remote) (Except.ok localSha) = Except.ok false) := by
  constructor
  · simp only [is_digest_different, Except.ok.injEq]
    exact bne_iff_ne
  · intro h
    subst h
    simp only [is_digest_different, Except.ok.injEq]
    rw [rustTrim_idem]
    exact bne_self_eq_false _

/-- C6 counterexample: with the local file unreadable the local digest is
the empty string, but a remote digest response that trims to the empty
string makes `is_digest_different` return `false`, not the claimed `true`. -/
theorem is_digest_different_missing_file_cex :
    is_digest_different (Except.ok " \n") (Except.error "No such file or directory") ≠
      Except.ok true := by decide

/-- C6 amended: when the local file does not exist or cannot be read the
local digest is taken to be the empty string, and `is_digest_different`
returns `true` exactly when the trimmed remote text is nonempty; a remote
response that is empty or all whitespace yields `false`. -/
theorem is_digest_different_missing_file_spec (remote e : String) :
    (rustTrim remote ≠ "" →
      is_digest_different (Except.ok remote) (Except.error e) = Except.ok true) ∧
    (rustTrim remote = "" →
      is_digest_different (Except.ok remote) (Except.error e) = Except.ok false) := by
  have h0 : rustTrim "" = "" := rfl
  constructor
  · intro h
    simp only [is_digest_different, Except.ok.injEq, h0]
    exact bne_iff_ne.mpr h
  · intro h
    simp only [is_digest_different, Except.ok.injEq, h0, h]
    exact bne_self_eq_false _

/-- C7: for every artifact response lacking a declared content length,
`download_file` returns an error and leaves the destination path untouched
(the destination is created or truncated only after the content length has
been obtained). -/
theorem download_file_missing_content_length (env : DownloadEnv) (fs : FsState)
    (res : HttpResponse) (hs : env.sendResult = Except.ok res)
    (hl : res.contentLength = none) :
    download_file env fs = (Except.error "Failed to get content length from url", fs) := by
  simp [download_file, hs, hl]

/-- Witness for C7: a content-length-free response against an existing
destination file leaves the file's bytes in place. -/
theorem download_file_missing_content_length_witness :
    download_file ⟨Except.ok ⟨200, none, []⟩, true⟩ ⟨some [9, 9]⟩ =
      (Except.error "Failed to get content length from url", ⟨some [9, 9]⟩) :=
  download_file_missing_content_length ⟨Except.ok ⟨200, none, []⟩, true⟩ ⟨some [9, 9]⟩
    ⟨200, none, []⟩ rfl rfl

/-- C8 counterexample: a 404 response with a declared content length is
streamed to the destination and `download_file` returns `Ok`, so a non-200
status is not treated as a failure. -/
theorem download_file_writes_on_404 :
    download_file ⟨Except.ok ⟨404, some 5, [ChunkItem.chunk [1, 2, 3, 4, 5] true]⟩, true⟩
        ⟨none⟩ =
      (Except.ok (), ⟨some [1, 2, 3, 4, 5]⟩) := by decide

/-- C8 amended: `download_file` never inspects the HTTP status; its result
and filesystem effect are identical for every status code on an otherwise
identical response, and any response with a declared content length has its
body written to the destination. -/
theorem download_file_ignores_status (res : HttpResponse) (status2 : Nat)
    (createOk : Bool) (fs : FsState) :
    download_file ⟨Except.ok { res with status := status2 }, createOk⟩ fs =
      download_file ⟨Except.ok res, createOk⟩ fs := rfl

/-- Helper: when every stream item is received and written successfully,
the chunk loop returns `Ok` and its counter tracks the minimum of the
cumulative byte count and the declared total. -/
theorem download_chunks_all_ok (total : Nat) :
    ∀ (items : List ChunkItem), (∀ c ∈ items, chunkOk c = true) →
      ∀ (d : Nat) (content : List Nat), d ≤ total →
        (download_chunks total items d content).outcome = Except.ok () ∧
        (download_chunks total items d content).downloaded =
          min (d + chunksByteLen items) total := by
  intro items
  induction items with
  | nil =>
    intro _ d content hd
    refine ⟨rfl, ?_⟩
    simp only [download_chunks, chunksByteLen]
    omega
  | cons c rest ih =>
    intro h d content hd
    cases c with
    | streamError =>
      have := h .streamError (by simp)
      simp [chunkOk] at this
    | chunk bytes writeOk =>
      have hw : writeOk = true := h (.chunk bytes writeOk) (List.mem_cons_self _ _)
      subst hw
      have hrest : ∀ c ∈ rest, chunkOk c = true :=
        fun c hc => h c (List.mem_cons_of_mem _ hc)
      have hd2 : min (d + bytes.length) total ≤ total := Nat.min_le_right _ _
      obtain ⟨h1, h2⟩ :=
        ih hrest (min (d + bytes.length) total) (content ++ bytes) hd2
      refine ⟨?_, ?_⟩
      · simpa only [download_chunks, if_pos rfl] using h1
      · rw [show download_chunks total (ChunkItem.chunk bytes true :: rest) d content =
          download_chunks total rest (min (d + bytes.length) total) (content ++ bytes) from rfl]
        rw [h2]
        simp only [chunksByteLen]
        omega

/-- C9: with a declared content length, `download_file` returns `Ok`
whenever every body chunk is received and written without error, regardless
of whether the cumulative bytes equal the declared total; and after each
chunk the tracked counter equals the minimum of the cumulative chunk
lengths and the declared total. -/
theorem download_file_ok_counter_spec (res : HttpResponse) (total : Nat) (fs : FsState)
    (hl : res.contentLength = some total)
    (hok : ∀ c ∈ res.chunks, chunkOk c = true) :
    (download_file ⟨Except.ok res, true⟩ fs).1 = Except.ok () ∧
    ∀ n, (download_chunks total (res.chunks.take n) 0 []).downloaded =
      min (chunksByteLen (res.chunks.take n)) total := by
  constructor
  · simp only [download_file, hl, if_pos rfl]
    exact (download_chunks_all_ok total res.chunks hok 0 [] (Nat.zero_le _)).1
  · intro n
    have hsub : ∀ c ∈ res.chunks.take n, chunkOk c = true :=
      fun c hc => hok c (List.take_subset n res.chunks hc)
    have := (download_chunks_all_ok total (res.chunks.take n) hsub 0 [] (Nat.zero_le _)).2
    simpa using this

/-- Witness for C9: a response declaring 10 bytes whose body is only 4
bytes still downloads with `Ok`, and the counter stays at the cumulative
byte counts 0, 3, 4. -/
theorem download_file_ok_counter_spec_witness :
    (download_file ⟨Except.ok c9res, true⟩ ⟨none⟩).1 = Except.ok () ∧
    ∀ n, (download_chunks 10 (c9res.chunks.take n) 0 []).downloaded =
      min (chunksByteLen (c9res.chunks.take n)) 10 :=
  download_file_ok_counter_spec c9res 10 ⟨none⟩ rfl (by decide)

/-- C2 counterexample: in the publish success trace the client write guard
is dropped only at the end of the block, after the geoip lock was acquired,
so the claimed release-before-acquire ordering does not hold. -/
theorem publish_release_not_before_acquire :
    ¬ publish_success_events.indexOf LockEvent.releaseClientWrite <
      publish_success_events.indexOf LockEvent.acquireGeoipWrite := by decide

/-- C2 amended: during a successful publish the writer does hold both write
locks simultaneously — the geoip write lock is acquired while the client
write lock is still held, and the client lock is released last, at the end
of the success block. -/
theorem publish_holds_both_locks :
    clientWriteHeld 3 = true ∧ geoipWriteHeld 3 = true ∧
    publish_success_events.indexOf LockEvent.acquireGeoipWrite <
      publish_success_events.indexOf LockEvent.releaseClientWrite := by decide

/-- C3: when parsing the file fails, `update_global_maxmind_client` returns
normally (it only logs a warning) and leaves both `MAXMIND_DB_CLIENT` and
`GEOIP_TABLE` exactly equal to their pre-call values. -/
theorem update_parse_error_leaves_state (env : PublishEnv) (s : GlobalState) (e : String)
    (h : env.parseResult = Except.error e) :
    update_global_maxmind_client env s = ⟨StepOutcome.normal, s⟩ := by
  simp [update_global_maxmind_client, h]

/-- Witness for C3: a failed parse against a populated global state. -/
theorem update_parse_error_leaves_state_witness :
    update_global_maxmind_client ⟨Except.error "corrupt file", Except.ok ⟨5⟩⟩
        ⟨some ⟨7⟩, some ⟨3⟩⟩ =
      ⟨StepOutcome.normal, ⟨some ⟨7⟩, some ⟨3⟩⟩⟩ :=
  update_parse_error_leaves_state ⟨Except.error "corrupt file", Except.ok ⟨5⟩⟩
    ⟨some ⟨7⟩, some ⟨3⟩⟩ "corrupt file" rfl

/-- C4 counterexample: when `Geoip::new` fails, the `.unwrap()` in
`update_global_maxmind_client` panics, so publish does not return normally
for every outcome of the derived-state rebuild. -/
theorem publish_panics_on_geoip_failure :
    (update_global_maxmind_client ⟨Except.ok ⟨1⟩, Except.error "geoip build failed"⟩
        ⟨none, none⟩).outcome ≠ StepOutcome.normal := by decide

/-- Helper: a publish whose `Geoip` construction succeeds returns normally
for every parse outcome. -/
theorem update_outcome_normal_aux (env : PublishEnv) (s : GlobalState)
    (hg : exceptIsOk env.geoipResult = true) :
    (update_global_maxmind_client env s).outcome = StepOutcome.normal := by
  obtain ⟨parse, geoip⟩ := env
  cases parse with
  | error e => rfl
  | ok c =>
    cases geoip with
    | ok g => rfl
    | error e => simp [exceptIsOk] at hg

/-- Helper: a cycle whose HTTP client build and `Geoip` construction
succeed returns normally, whatever the digest, download and parse
outcomes. -/
theorem run_download_files_normal_aux (env : CycleEnv) (s : GlobalState) (fs : FsState)
    (hc : env.clientBuild = Except.ok ())
    (hg : exceptIsOk env.publish.geoipResult = true) :
    ∃ out, run_download_files env s fs = RunResult.normal out := by
  obtain ⟨cb, rt, ld, dl, pub⟩ := env
  subst hc
  show ∃ out,
    (let download_files :=
      match is_digest_different rt ld with
      | .ok is_different => is_different
      | .error _ => false
    if download_files then
      match download_file dl fs with
      | (.ok _, fs2) =>
        let pr := update_global_maxmind_client pub s
        match pr.outcome with
        | .normal => RunResult.normal (pr.state, fs2)
        | .panicked m => RunResult.panicked m
      | (.error _, fs2) => RunResult.normal (s, fs2)
    else RunResult.normal (s, fs)) = RunResult.normal out
  cases hdf : (match is_digest_different rt ld with
      | .ok is_different => is_different
      | .error _ => false) with
  | false => exact ⟨(s, fs), by simp [hdf]⟩
  | true =>
    simp only [hdf, if_true]
    rcases hdl : download_file dl fs with ⟨out1, fs2⟩
    cases out1 with
    | error e => exact ⟨(s, fs2), rfl⟩
    | ok u =>
      have hout := update_outcome_normal_aux pub s hg
      exact ⟨((update_global_maxmind_client pub s).state, fs2), by rw [hout]⟩

/-- C4 amended: publish and the cycle body return normally for every
outcome of the digest check, download and parse, provided the two
`.unwrap()`ed constructions — the HTTP client build and the `Geoip`
(derived enrichment) build — succeed; failure of either of those panics
instead of being contained. -/
theorem run_download_files_contained (env : CycleEnv) (s : GlobalState) (fs : FsState)
    (hc : env.clientBuild = Except.ok ())
    (hg : exceptIsOk env.publish.geoipResult = true) :
    ∃ out, run_download_files env s fs = RunResult.normal out :=
  run_download_files_normal_aux env s fs hc hg

/-- Witness for C4's amended theorem at the all-success tick environment. -/
theorem run_download_files_contained_witness :
    ∃ out, run_download_files c4env ⟨none, none⟩ ⟨none⟩ = RunResult.normal out :=
  run_download_files_contained c4env ⟨none, none⟩ ⟨none⟩ rfl rfl

/-- C10 counterexample: directory creation succeeds, yet the first loop
iteration exits `run` by panicking on the unwrapped HTTP client build, so
the loop does not keep running for every per-cycle outcome. -/
theorem run_loop_iteration_exits :
    c10badEnv.createDirResult = Except.ok () ∧
    run c10badEnv ⟨none⟩ = RunOutcome.panicked "client build failed" := by decide

/-- Helper: the loop keeps running when every observed tick builds its HTTP
client and its `Geoip` table successfully. -/
theorem run_loop_runs_aux :
    ∀ (cycles : List CycleEnv) (s : GlobalState) (fs : FsState),
      (∀ c ∈ cycles, c.clientBuild = Except.ok () ∧
        exceptIsOk c.publish.geoipResult = true) →
      ∃ s2 fs2, run_loop cycles s fs = RunOutcome.running s2 fs2 := by
  intro cycles
  induction cycles with
  | nil => exact fun s fs _ => ⟨s, fs, rfl⟩
  | cons c rest ih =>
    intro s fs h
    obtain ⟨hc, hg⟩ := h c (List.mem_cons_self _ _)
    obtain ⟨⟨s2, fs2⟩, hout⟩ := run_download_files_normal_aux c s fs hc hg
    have hrest := fun c2 hc2 => h c2 (List.mem_cons_of_mem _ hc2)
    obtain ⟨s3, fs3, h3⟩ := ih s2 fs2 hrest
    refine ⟨s3, fs3, ?_⟩
    show (match run_download_files c s fs with
      | .panicked m => RunOutcome.panicked m
      | .normal (s2, fs2) => run_loop rest s2 fs2) = RunOutcome.running s3 fs3
    rw [hout]
    exact h3

/-- C10 amended: `run` returns an error value iff creating the cache
directory fails; when the directory is created it performs the
unconditional initial load and enters the timer loop, which is still
running after any finite number of ticks provided the unwrapped
constructions succeed on each tick (a construction failure instead exits
the loop by panicking). -/
theorem run_error_iff_createdir (env : RunEnv) (fs : FsState)
    (hg : exceptIsOk env.initialPublish.geoipResult = true)
    (hcy : ∀ c ∈ env.cycles, c.clientBuild = Except.ok () ∧
      exceptIsOk c.publish.geoipResult = true) :
    (∀ e, run env fs = RunOutcome.errored e ↔ env.createDirResult = Except.error e) ∧
    (env.createDirResult = Except.ok () →
      ∃ s fs2, run env fs = RunOutcome.running s fs2) := by
  obtain ⟨cd, ip, cycles⟩ := env
  have hnorm := update_outcome_normal_aux ip ⟨none, none⟩ hg
  constructor
  · intro e
    cases cd with
    | error e2 =>
      constructor
      · intro h
        injection h with h2
        rw [h2]
      · intro h
        injection h with h2
        rw [h2]
        rfl
    | ok u =>
      constructor
      · intro h
        exfalso
        revert h
        show (match (update_global_maxmind_client ip ⟨none, none⟩).outcome with
          | .panicked m => RunOutcome.panicked m
          | .normal =>
            run_loop cycles (update_global_maxmind_client ip ⟨none, none⟩).state fs) =
            RunOutcome.errored e → False
        rw [hnorm]
        obtain ⟨s2, fs2, h2⟩ :=
          run_loop_runs_aux cycles (update_global_maxmind_client ip ⟨none, none⟩).state fs hcy
        rw [h2]
        intro h
        exact RunOutcome.noConfusion h
      · intro h
        exact Except.noConfusion h
  · intro h
    have hu : cd = Except.ok () := by
      cases cd with
      | ok u => rfl
      | error e2 => exact Except.noConfusion h
    subst hu
    obtain ⟨s2, fs2, h2⟩ :=
      run_loop_runs_aux cycles (update_global_maxmind_client ip ⟨none, none⟩).state fs hcy
    refine ⟨s2, fs2, ?_⟩
    show (match (update_global_maxmind_client ip ⟨none, none⟩).outcome with
      | .panicked m => RunOutcome.panicked m
      | .normal =>
        run_loop cycles (update_global_maxmind_client ip ⟨none, none⟩).state fs) =
        RunOutcome.running s2 fs2
    rw [hnorm]
    exact h2

/-- Witness for C10's amended theorem at a concrete run environment with
one all-success tick. -/
theorem run_error_iff_createdir_witness :
    (∀ e, run c10goodEnv ⟨none⟩ = RunOutcome.errored e ↔
      c10goodEnv.createDirResult = Except.error e) ∧
    (c10goodEnv.createDirResult = Except.ok () →
      ∃ s fs2, run c10goodEnv ⟨none⟩ = RunOutcome.running s fs2) :=
  run_error_iff_createdir c10goodEnv ⟨none⟩ rfl (by decide)

end MmdbDownloader
